import Mathlib

/-!
Verification development for the groq-mlflow-template repository.

Part 1 embeds the single source script `src/main.py` as a pure function
producing the ordered trace of externally visible steps the script performs,
parameterised by the behaviour of the external chat-completion API client.

Part 2 models the Call Recorder component that the specification describes
(the recorder itself has no implementation in the repository's source; it is
modelled from the specification's words, as marked on each definition).
-/

namespace GroqScript

/-- A role/content message pair, as in the `messages` list of `src/main.py`. -/
structure ChatMessage where
  role : String
  content : String
  deriving DecidableEq, Repr

/-- The request descriptor sent by `client.chat.completions.create` in
`src/main.py`: a model identifier string and an ordered list of messages. -/
structure ChatRequest where
  model : String
  messages : List ChatMessage
  deriving DecidableEq, Repr

/-- One choice of a chat-completion response (`message.choices[i]`). -/
structure Choice where
  message : ChatMessage
  deriving DecidableEq, Repr

/-- A chat-completion response: a list of choices (`message.choices`). -/
structure ChatResponse where
  choices : List Choice
  deriving DecidableEq, Repr

/-- The literal request built at `src/main.py` lines 20-28. -/
def theRequest : ChatRequest :=
  ⟨"llama-3.1-8b-instant",
   [⟨"user", "Explain the importance of low latency LLMs."⟩]⟩

/-- The tracking URI string built at `src/main.py` line 11,
`f"file://\x7bpathlib.Path.cwd() / 'mlruns'\x7d"`, as a function of the
current working directory. -/
def mlrunsUri (cwd : String) : String := "file://" ++ cwd ++ "/mlruns"

/-- Externally visible steps taken by the top level of `src/main.py`. -/
inductive Event where
  | setTrackingUri (uri : String)
  | setExperiment (name : String)
  | autolog
  | chatCreate (req : ChatRequest)
  | printOut (s : String)
  deriving DecidableEq, Repr

/-- How a run of the script can terminate abnormally: an unhandled upstream
API failure, or the IndexError from `message.choices[0]` on an empty list. -/
inductive ScriptError where
  | upstream (msg : String)
  | indexError
  deriving DecidableEq, Repr

/-- Is this event a chat-completion request? -/
def isChatCreate : Event → Bool
  | .chatCreate _ => true
  | _ => false

/-- Is this event one of the global tracking-configuration steps
(`mlflow.set_tracking_uri`, `mlflow.set_experiment`, `mlflow.groq.autolog`)? -/
def isConfigEvent : Event → Bool
  | .setTrackingUri _ => true
  | .setExperiment _ => true
  | .autolog => true
  | _ => false

/-- Is this event a `print`? -/
def isPrintOut : Event → Bool
  | .printOut _ => true
  | _ => false

/-- The top-level execution of `src/main.py`, lines 11-30, translated step by
step. `cwd` abstracts `pathlib.Path.cwd()`; `api` abstracts the external
`client.chat.completions.create` call, which may fail. The result is the
trace of steps the script performed, paired with `none` on a clean run or
the error that propagated out of the script unhandled. The final `print`
indexes `message.choices[0]` with no bounds guard, so an empty `choices`
list ends the run with an IndexError. -/
def runScript (cwd : String) (api : ChatRequest → Except String ChatResponse) :
    List Event × Option ScriptError :=
  let conf := [Event.setTrackingUri (mlrunsUri cwd),
               Event.setExperiment "Groq",
               Event.autolog]
  match api theRequest with
  | .error e => (conf ++ [Event.chatCreate theRequest], some (.upstream e))
  | .ok resp =>
    match resp.choices with
    | [] => (conf ++ [Event.chatCreate theRequest], some .indexError)
    | c :: _ =>
        (conf ++ [Event.chatCreate theRequest, Event.printOut c.message.content],
         none)

end GroqScript

namespace Recorder

/-- Modelled from the spec: the `error` field of a CallRecord, "a failure
kind and message" (spec section 3). The recorder's implementation is absent
from the repository's source; every definition in this namespace follows the
specification's own description of the Call Recorder. -/
structure ErrorInfo where
  kind : String
  message : String
  deriving DecidableEq, Repr

/-- Modelled from the spec: `status` is one of pending, succeeded, failed
(spec section 3). -/
inductive Status where
  | pending
  | succeeded
  | failed
  deriving DecidableEq, Repr

/-- Modelled from the spec: one CallRecord per intercepted call, with id,
wall-clock start and end instants, captured inputs, optional output,
optional error and a status (spec section 3). -/
structure CallRecord (α : Type) where
  id : Nat
  timestamp_start : Nat
  timestamp_end : Nat
  inputs : List (String × String)
  output : Option α
  error : Option ErrorInfo
  status : Status
  deriving DecidableEq, Repr

/-- Modelled from the spec: the outcome of one execution of the wrapped
callable — a normal return carrying a value, or a raised failure carrying a
kind and a message (spec sections 4.1 and 7). -/
inductive Outcome (α : Type) where
  | ok (val : α)
  | err (kind message : String)
  deriving DecidableEq, Repr

/-- Modelled from the spec: the recorder's state — an id generator, a
monotone wall clock, the append-only store of persisted records, and a flag
saying whether the persistence backend currently accepts writes (spec
sections 3, 4.1 and 7: persistence may fail and must then be reported as a
secondary error). -/
structure RecorderState (α : Type) where
  nextId : Nat
  clock : Nat
  store : List (CallRecord α)
  persistOk : Bool
  deriving DecidableEq, Repr

/-- Modelled from the spec: the observable effects of one `record` call, in
order — the wrapped callable is invoked, `timestamp_end` is captured after
its completion, then the record is persisted (or the persistence failure is
reported as a secondary, non-fatal warning) (spec sections 4.1, 5 and 7). -/
inductive RecEvent where
  | invoked
  | capturedEnd
  | persisted
  | persistFailed
  deriving DecidableEq, Repr

/-- A fresh recorder state with an empty store. -/
def initState (α : Type) (b : Bool) : RecorderState α := ⟨0, 0, [], b⟩

/-- Modelled from the spec: finalization of a record after the wrapped call
completes — on normal return the output is set and status becomes succeeded,
on failure the error (kind + message) is set and status becomes failed; the
two are mutually exclusive (spec sections 3 and 4.1). -/
def finalize (α : Type) (rid t0 t1 : Nat) (inputs : List (String × String))
    (res : Outcome α) : CallRecord α :=
  match res with
  | .ok v => ⟨rid, t0, t1, inputs, some v, none, .succeeded⟩
  | .err k m => ⟨rid, t0, t1, inputs, none, some ⟨k, m⟩, .failed⟩

/-- Modelled from the spec: `record(call, args) -> result` (spec section
4.1). A new record id is generated, `timestamp_start` is captured, the
callable is invoked exactly once, `timestamp_end` is captured after its
completion (`dur` is the wall-clock time the call took), the finalized
record is appended to the store — unless the persistence backend fails, in
which case the failure is reported as a secondary event and nothing else
changes — and the callable's outcome is returned unchanged. The returned
event list is the ordered trace of observable effects. -/
def record (α : Type) (s : RecorderState α) (inputs : List (String × String))
    (call : Unit → Outcome α) (dur : Nat) :
    RecorderState α × Outcome α × List RecEvent :=
  let rid := s.nextId
  let t0 := s.clock
  let res := call ()
  let t1 := t0 + dur
  let r := finalize α rid t0 t1 inputs res
  if s.persistOk then
    (⟨rid + 1, t1 + 1, s.store ++ [r], s.persistOk⟩, res,
     [.invoked, .capturedEnd, .persisted])
  else
    (⟨rid + 1, t1 + 1, s.store, s.persistOk⟩, res,
     [.invoked, .capturedEnd, .persistFailed])

/-- Modelled from the spec: `export(filter)` — a read-only, restartable
sequence of the previously persisted records matching the filter (spec
section 4.1). -/
def exportRecords (α : Type) (s : RecorderState α)
    (f : CallRecord α → Bool) : List (CallRecord α) :=
  s.store.filter f

/-- Recorder states reachable from a fresh state by `record` calls; between
calls the persistence backend may start or stop failing (flag `b`). -/
inductive Reachable (α : Type) : RecorderState α → Prop where
  | init (b : Bool) : Reachable α (initState α b)
  | step (s : RecorderState α) (b : Bool) (inputs : List (String × String))
      (call : Unit → Outcome α) (dur : Nat) :
      Reachable α s →
      Reachable α (record α ⟨s.nextId, s.clock, s.store, b⟩ inputs call dur).1

/-- A finalized record: not pending, exactly one of output/error set in
agreement with the status, and a non-negative duration. -/
def finalizedOk (r : CallRecord α) : Prop :=
  r.status ≠ .pending ∧
  ((r.status = .succeeded ∧ r.output.isSome ∧ r.error = none) ∨
   (r.status = .failed ∧ r.output = none ∧ r.error.isSome)) ∧
  r.timestamp_start ≤ r.timestamp_end

/-- Store invariant: every stored record is finalized and started no later
than the current clock, and the store is sorted by `timestamp_start`. -/
def storeInv (s : RecorderState α) : Prop :=
  (∀ r ∈ s.store, finalizedOk r ∧ r.timestamp_start ≤ s.clock) ∧
  s.store.Pairwise (fun a b => a.timestamp_start ≤ b.timestamp_start)

/-- Unfolding of `record` when persistence succeeds. -/
theorem record_persist_true (α : Type) (s : RecorderState α)
    (inputs : List (String × String)) (call : Unit → Outcome α) (dur : Nat)
    (hp : s.persistOk = true) :
    record α s inputs call dur =
      (⟨s.nextId + 1, s.clock + dur + 1,
        s.store ++ [finalize α s.nextId s.clock (s.clock + dur) inputs (call ())],
        s.persistOk⟩,
       call (), [.invoked, .capturedEnd, .persisted]) := by
  simp [record, hp]

/-- Unfolding of `record` when persistence fails. -/
theorem record_persist_false (α : Type) (s : RecorderState α)
    (inputs : List (String × String)) (call : Unit → Outcome α) (dur : Nat)
    (hp : s.persistOk = false) :
    record α s inputs call dur =
      (⟨s.nextId + 1, s.clock + dur + 1, s.store, s.persistOk⟩,
       call (), [.invoked, .capturedEnd, .persistFailed]) := by
  simp [record, hp]

/-- A finalized record has well-ordered timestamps and the expected fields,
whatever the outcome was. -/
theorem finalize_finalizedOk (α : Type) (rid t0 t1 : Nat)
    (inputs : List (String × String)) (res : Outcome α) (h : t0 ≤ t1) :
    finalizedOk (finalize α rid t0 t1 inputs res) := by
  cases res <;> simp [finalize, finalizedOk] <;> exact h

/-- The timestamps of a finalized record are the instants passed in. -/
theorem finalize_timestamps (α : Type) (rid t0 t1 : Nat)
    (inputs : List (String × String)) (res : Outcome α) :
    (finalize α rid t0 t1 inputs res).timestamp_start = t0 ∧
    (finalize α rid t0 t1 inputs res).timestamp_end = t1 := by
  cases res <;> simp [finalize]

/-- Every reachable recorder state satisfies the store invariant. -/
theorem reachable_storeInv (α : Type) (s : RecorderState α)
    (h : Reachable α s) : storeInv s := by
  induction h with
  | init b =>
      exact ⟨fun r hr => absurd hr (by simp [initState]), by simp [initState]⟩
  | step s b inputs call dur hs ih =>
      obtain ⟨hmem, hpair⟩ := ih
      cases b with
      | false =>
          rw [record_persist_false α _ _ _ _ rfl]
          simp only [storeInv]
          refine ⟨fun r hr => ?_, hpair⟩
          obtain ⟨h1, h2⟩ := hmem r hr
          exact ⟨h1, by omega⟩
      | true =>
          rw [record_persist_true α _ _ _ _ rfl]
          simp only [storeInv]
          refine ⟨fun r hr => ?_, ?_⟩
          · rw [List.mem_append, List.mem_singleton] at hr
            rcases hr with hr | hr
            · obtain ⟨h1, h2⟩ := hmem r hr
              exact ⟨h1, by omega⟩
            · subst hr
              refine ⟨finalize_finalizedOk α _ _ _ _ _ (Nat.le_add_right _ _), ?_⟩
              rw [(finalize_timestamps α _ _ _ _ _).1]
              omega
          · rw [List.pairwise_append]
            refine ⟨hpair, List.pairwise_singleton _ _, ?_⟩
            intro a ha b hb
            rw [List.mem_singleton] at hb
            subst hb
            rw [(finalize_timestamps α _ _ _ _ _).1]
            exact (hmem a ha).2

end Recorder

open GroqScript Recorder

/-- A demonstration API behaviour that succeeds with one choice. -/
def demoApiOk : ChatRequest → Except String ChatResponse :=
  fun _ => Except.ok ⟨[⟨⟨"assistant", "hi"⟩⟩]⟩

/-- A demonstration API behaviour that fails. -/
def demoApiErr : ChatRequest → Except String ChatResponse :=
  fun _ => Except.error "rate limit"

/-- A demonstration API behaviour that succeeds with an empty choice list. -/
def demoApiEmpty : ChatRequest → Except String ChatResponse :=
  fun _ => Except.ok ⟨[]⟩

/-- Claim C1: the script's top-level execution issues exactly one
chat-completion request — whose descriptor is a model identifier string and
an ordered list of role/content message pairs — and then prints the
generated content of the response: on a successful response with first
choice `c`, the trace contains one `chatCreate` event carrying `theRequest`
and ends with a `printOut` of `c`'s content, right after the request. -/
theorem c1_one_request_then_print (cwd : String)
    (api : ChatRequest → Except String ChatResponse)
    (resp : ChatResponse) (c : Choice) (rest : List Choice)
    (hok : api theRequest = Except.ok resp)
    (hch : resp.choices = c :: rest) :
    (runScript cwd api).1.filter isChatCreate
      = [Event.chatCreate theRequest] ∧
    (runScript cwd api).1 =
      [Event.setTrackingUri (mlrunsUri cwd), Event.setExperiment "Groq",
       Event.autolog, Event.chatCreate theRequest,
       Event.printOut c.message.content] ∧
    theRequest = ⟨"llama-3.1-8b-instant",
      [⟨"user", "Explain the importance of low latency LLMs."⟩]⟩ := by
  refine ⟨?_, ?_, rfl⟩ <;> simp [runScript, hok, hch, isChatCreate]

/-- Concrete run for C1: the API answers with one choice whose content is
"hi"; the script issues the single request and prints "hi". -/
theorem c1_one_request_then_print_witness :
    (runScript "/w" demoApiOk).1.filter isChatCreate
      = [Event.chatCreate theRequest] ∧
    (runScript "/w" demoApiOk).1 =
      [Event.setTrackingUri (mlrunsUri "/w"), Event.setExperiment "Groq",
       Event.autolog, Event.chatCreate theRequest, Event.printOut "hi"] ∧
    theRequest = ⟨"llama-3.1-8b-instant",
      [⟨"user", "Explain the importance of low latency LLMs."⟩]⟩ :=
  c1_one_request_then_print "/w" demoApiOk ⟨[⟨⟨"assistant", "hi"⟩⟩]⟩
    ⟨⟨"assistant", "hi"⟩⟩ [] rfl rfl

/-- Claim C8: the script performs no error handling around the single
chat-completion call: when the API call fails, the failure propagates out of
the script unchanged and unhandled — no retry (still exactly one request
event) and no fallback (nothing is printed). -/
theorem c8_no_error_handling (cwd : String)
    (api : ChatRequest → Except String ChatResponse) (e : String)
    (herr : api theRequest = Except.error e) :
    (runScript cwd api).2 = some (ScriptError.upstream e) ∧
    (runScript cwd api).1.filter isChatCreate
      = [Event.chatCreate theRequest] ∧
    (runScript cwd api).1.filter isPrintOut = [] := by
  refine ⟨?_, ?_, ?_⟩ <;>
    simp [runScript, herr, isChatCreate, isPrintOut]

/-- Concrete run for C8: a rate-limit failure from the API propagates out of
the script, with one request issued and nothing printed. -/
theorem c8_no_error_handling_witness :
    (runScript "/w" demoApiErr).2 = some (ScriptError.upstream "rate limit") ∧
    (runScript "/w" demoApiErr).1.filter isChatCreate
      = [Event.chatCreate theRequest] ∧
    (runScript "/w" demoApiErr).1.filter isPrintOut = [] :=
  c8_no_error_handling "/w" demoApiErr "rate limit" rfl

/-- Claim C9: the global tracking configuration — tracking URI and
experiment name — is set exactly once each at startup, before
auto-instrumentation is enabled and before the chat-completion request: on
every run the trace starts with `setTrackingUri`, then `setExperiment`, then
`autolog`, then the request, and no configuration event occurs later. -/
theorem c9_config_once_at_startup (cwd : String)
    (api : ChatRequest → Except String ChatResponse) :
    ∃ tail, (runScript cwd api).1 =
      Event.setTrackingUri (mlrunsUri cwd) :: Event.setExperiment "Groq" ::
      Event.autolog :: Event.chatCreate theRequest :: tail ∧
      tail.filter isConfigEvent = [] := by
  unfold runScript
  cases hapi : api theRequest with
  | error e => exact ⟨[], by simp, by simp⟩
  | ok resp =>
      cases hch : resp.choices with
      | nil => exact ⟨[], by simp [hch], by simp⟩
      | cons c cs =>
          exact ⟨[Event.printOut c.message.content], by simp [hch],
                 by simp [isConfigEvent]⟩

/-- Claim C10: the script prints only the first choice of the response via
unguarded indexing: when the response's choice list is empty, the run ends
with an index error and nothing is printed. -/
theorem c10_empty_choices_index_error (cwd : String)
    (api : ChatRequest → Except String ChatResponse) (resp : ChatResponse)
    (hok : api theRequest = Except.ok resp) (hch : resp.choices = []) :
    (runScript cwd api).2 = some ScriptError.indexError ∧
    (runScript cwd api).1.filter isPrintOut = [] := by
  refine ⟨?_, ?_⟩ <;> simp [runScript, hok, hch, isPrintOut]

/-- Concrete run for C10: the API returns an empty choice list; the run ends
with an index error and nothing is printed. -/
theorem c10_empty_choices_index_error_witness :
    (runScript "/w" demoApiEmpty).2 = some ScriptError.indexError ∧
    (runScript "/w" demoApiEmpty).1.filter isPrintOut = [] :=
  c10_empty_choices_index_error "/w" demoApiEmpty ⟨[]⟩ rfl rfl

/-- A demonstration wrapped callable that returns "hello". -/
def demoCallOk : Unit → Outcome String := fun _ => Outcome.ok "hello"

/-- A demonstration wrapped callable that fails with an upstream timeout. -/
def demoCallErr : Unit → Outcome String :=
  fun _ => Outcome.err "UpstreamCallError" "timeout"

/-- Demonstration semantic inputs to log. -/
def demoInputs : List (String × String) :=
  [("model", "m1"), ("messages", "user:hi")]

/-- The recorder state after one successful recorded call. -/
def demoS1 : RecorderState String :=
  (record String (initState String true) demoInputs demoCallOk 3).1

/-- The recorder state after a successful and then a failing recorded call. -/
def demoS2 : RecorderState String :=
  (record String ⟨demoS1.nextId, demoS1.clock, demoS1.store, true⟩
    demoInputs demoCallErr 2).1

/-- The record persisted by the first demonstration call. -/
def demoRec1 : CallRecord String :=
  ⟨0, 0, 3, demoInputs, some "hello", none, Status.succeeded⟩

/-- `demoS1` is reachable from a fresh recorder state. -/
theorem demoS1_reachable : Reachable String demoS1 :=
  Reachable.step (initState String true) true demoInputs demoCallOk 3
    (Reachable.init true)

/-- `demoS2` is reachable from a fresh recorder state. -/
theorem demoS2_reachable : Reachable String demoS2 :=
  Reachable.step demoS1 true demoInputs demoCallErr 2 demoS1_reachable

/-- Claim C2: for every callable and argument list, `record` executes the
callable exactly once (one `invoked` event), returns the callable's result
unchanged to its caller, and persists exactly one CallRecord per invocation,
whatever outcome the callable produced. -/
theorem c2_record_once_result_unchanged
    (s : RecorderState String) (inputs : List (String × String))
    (call : Unit → Outcome String) (dur : Nat) (hp : s.persistOk = true) :
    (record String s inputs call dur).2.1 = call () ∧
    (record String s inputs call dur).2.2.count RecEvent.invoked = 1 ∧
    (record String s inputs call dur).1.store =
      s.store ++
        [finalize String s.nextId s.clock (s.clock + dur) inputs (call ())] := by
  rw [record_persist_true String s inputs call dur hp]
  refine ⟨rfl, ?_, rfl⟩
  dsimp only
  decide

/-- Concrete run for C2: recording a call returning "hello" invokes it once,
returns `Outcome.ok "hello"`, and persists exactly one record. -/
theorem c2_record_once_result_unchanged_witness :
    (record String (initState String true) demoInputs demoCallOk 3).2.1
      = demoCallOk () ∧
    (record String (initState String true) demoInputs demoCallOk 3).2.2.count
      RecEvent.invoked = 1 ∧
    (record String (initState String true) demoInputs demoCallOk 3).1.store =
      (initState String true).store ++
        [finalize String (initState String true).nextId
          (initState String true).clock ((initState String true).clock + 3)
          demoInputs (demoCallOk ())] :=
  c2_record_once_result_unchanged (initState String true) demoInputs
    demoCallOk 3 rfl

/-- Claim C3: for every failing call, `record` captures `timestamp_end`,
builds the record with `error` holding the kind and message extracted from
the failure, `status = failed` and no output, persists it, and returns the
same failure unchanged to the caller (the `invoked`/`capturedEnd`/`persisted`
event order shows nothing is swallowed before the failure is re-signaled). -/
theorem c3_failure_recorded_resignaled
    (s : RecorderState String) (inputs : List (String × String))
    (call : Unit → Outcome String) (dur : Nat) (k m : String)
    (hf : call () = Outcome.err k m) (hp : s.persistOk = true) :
    (record String s inputs call dur).2.1 = Outcome.err k m ∧
    (record String s inputs call dur).1.store =
      s.store ++ [⟨s.nextId, s.clock, s.clock + dur, inputs, none,
                   some ⟨k, m⟩, Status.failed⟩] ∧
    (record String s inputs call dur).2.2 =
      [RecEvent.invoked, RecEvent.capturedEnd, RecEvent.persisted] := by
  rw [record_persist_true String s inputs call dur hp]
  refine ⟨hf, ?_, rfl⟩
  simp [finalize, hf]

/-- Concrete run for C3: a call failing with an upstream timeout yields one
persisted failed record and the same failure returned to the caller. -/
theorem c3_failure_recorded_resignaled_witness :
    (record String (initState String true) demoInputs demoCallErr 2).2.1
      = Outcome.err "UpstreamCallError" "timeout" ∧
    (record String (initState String true) demoInputs demoCallErr 2).1.store =
      (initState String true).store ++
        [⟨(initState String true).nextId, (initState String true).clock,
          (initState String true).clock + 2, demoInputs, none,
          some ⟨"UpstreamCallError", "timeout"⟩, Status.failed⟩] ∧
    (record String (initState String true) demoInputs demoCallErr 2).2.2 =
      [RecEvent.invoked, RecEvent.capturedEnd, RecEvent.persisted] :=
  c3_failure_recorded_resignaled (initState String true) demoInputs
    demoCallErr 2 "UpstreamCallError" "timeout" rfl rfl

/-- Claim C4: a persistence failure never changes what `record` hands back
to its caller — the callable's outcome is returned unchanged for any state
of the persistence backend — and the persistence failure is reported only as
the distinct, secondary `persistFailed` event, leaving the store untouched. -/
theorem c4_persistence_failure_secondary
    (s : RecorderState String) (inputs : List (String × String))
    (call : Unit → Outcome String) (dur : Nat) (b : Bool) :
    (record String ⟨s.nextId, s.clock, s.store, b⟩ inputs call dur).2.1
      = call () ∧
    (record String ⟨s.nextId, s.clock, s.store, false⟩ inputs call dur).2.2 =
      [RecEvent.invoked, RecEvent.capturedEnd, RecEvent.persistFailed] ∧
    (record String ⟨s.nextId, s.clock, s.store, false⟩ inputs call dur).1.store
      = s.store := by
  refine ⟨?_, ?_, ?_⟩
  · cases b
    · rw [record_persist_false String _ inputs call dur rfl]
    · rw [record_persist_true String _ inputs call dur rfl]
  · rw [record_persist_false String _ inputs call dur rfl]
  · rw [record_persist_false String _ inputs call dur rfl]

/-- Claim C5: once a record is finalized its status is never `pending` and
exactly one of `output`/`error` is set, in every reachable recorder state;
and `record` is append-only — the previous store is an unchanged initial
segment of the new one. -/
theorem c5_finalized_exclusive_append_only :
    (∀ s : RecorderState String, Reachable String s →
      ∀ r ∈ s.store, r.status ≠ Status.pending ∧
        ((r.output.isSome ∧ r.error = none) ∨
         (r.output = none ∧ r.error.isSome))) ∧
    (∀ (s : RecorderState String) (inputs : List (String × String))
       (call : Unit → Outcome String) (dur : Nat),
      (record String s inputs call dur).1.store =
        s.store ++
          ((record String s inputs call dur).1.store.drop s.store.length)) := by
  constructor
  · intro s hs r hr
    obtain ⟨hmem, -⟩ := reachable_storeInv String s hs
    obtain ⟨⟨hnp, hex, -⟩, -⟩ := hmem r hr
    refine ⟨hnp, ?_⟩
    rcases hex with ⟨-, ho, he⟩ | ⟨-, ho, he⟩
    · exact Or.inl ⟨ho, he⟩
    · exact Or.inr ⟨ho, he⟩
  · intro s inputs call dur
    cases hp : s.persistOk
    · rw [record_persist_false String s inputs call dur hp]
      simp
    · rw [record_persist_true String s inputs call dur hp]
      simp

/-- Concrete case for C5: the record persisted by the demonstration call is
finalized with exactly its output set, and a further `record` call only
appends to the store. -/
theorem c5_finalized_exclusive_append_only_witness :
    (demoRec1.status ≠ Status.pending ∧
      ((demoRec1.output.isSome ∧ demoRec1.error = none) ∨
       (demoRec1.output = none ∧ demoRec1.error.isSome))) ∧
    (record String demoS1 demoInputs demoCallErr 2).1.store =
      demoS1.store ++
        ((record String demoS1 demoInputs demoCallErr 2).1.store.drop
          demoS1.store.length) :=
  ⟨c5_finalized_exclusive_append_only.1 demoS1 demoS1_reachable demoRec1
    (by decide),
   c5_finalized_exclusive_append_only.2 demoS1 demoInputs demoCallErr 2⟩

/-- Claim C6: every record persisted by `record` has
`timestamp_end ≥ timestamp_start` (duration is non-negative), and
`timestamp_end` is captured after the wrapped call completes and before the
record is persisted, as the `invoked`/`capturedEnd`/`persisted` event order
states. -/
theorem c6_timestamps_ordered
    (s : RecorderState String) (inputs : List (String × String))
    (call : Unit → Outcome String) (dur : Nat) (hp : s.persistOk = true) :
    (record String s inputs call dur).1.store =
      s.store ++
        [finalize String s.nextId s.clock (s.clock + dur) inputs (call ())] ∧
    (finalize String s.nextId s.clock (s.clock + dur) inputs
        (call ())).timestamp_start ≤
      (finalize String s.nextId s.clock (s.clock + dur) inputs
        (call ())).timestamp_end ∧
    (record String s inputs call dur).2.2 =
      [RecEvent.invoked, RecEvent.capturedEnd, RecEvent.persisted] := by
  rw [record_persist_true String s inputs call dur hp]
  refine ⟨rfl, ?_, rfl⟩
  rw [(finalize_timestamps String _ _ _ _ _).1,
      (finalize_timestamps String _ _ _ _ _).2]
  omega

/-- Concrete run for C6: the demonstration call's persisted record has
`timestamp_start = 0` and `timestamp_end = 3`, captured between the call's
completion and persistence. -/
theorem c6_timestamps_ordered_witness :
    (record String (initState String true) demoInputs demoCallOk 3).1.store =
      (initState String true).store ++
        [finalize String (initState String true).nextId
          (initState String true).clock ((initState String true).clock + 3)
          demoInputs (demoCallOk ())] ∧
    (finalize String (initState String true).nextId
        (initState String true).clock ((initState String true).clock + 3)
        demoInputs (demoCallOk ())).timestamp_start ≤
      (finalize String (initState String true).nextId
        (initState String true).clock ((initState String true).clock + 3)
        demoInputs (demoCallOk ())).timestamp_end ∧
    (record String (initState String true) demoInputs demoCallOk 3).2.2 =
      [RecEvent.invoked, RecEvent.capturedEnd, RecEvent.persisted] :=
  c6_timestamps_ordered (initState String true) demoInputs demoCallOk 3 rfl

/-- Claim C7: in every reachable recorder state, exporting with the trivial
filter returns all persisted records, in non-decreasing `timestamp_start`
order; a restarted export over the same store yields the same sequence; and
any filtered export only reads existing records from the store (it is a
sublist of the store, mutating nothing). -/
theorem c7_export_all_sorted_restartable
    (s : RecorderState String) (h : Reachable String s)
    (s' : RecorderState String) (hst : s'.store = s.store)
    (f : CallRecord String → Bool) :
    exportRecords String s (fun _ => true) = s.store ∧
    List.Pairwise (fun a b => a.timestamp_start ≤ b.timestamp_start)
      (exportRecords String s (fun _ => true)) ∧
    exportRecords String s' (fun _ => true)
      = exportRecords String s (fun _ => true) ∧
    (exportRecords String s f).Sublist s.store := by
  obtain ⟨-, hpair⟩ := reachable_storeInv String s h
  have hall : exportRecords String s (fun _ => true) = s.store := by
    simp [exportRecords]
  refine ⟨hall, ?_, ?_, ?_⟩
  · rw [hall]; exact hpair
  · simp [exportRecords, hst]
  · exact List.filter_sublist s.store

/-- Concrete case for C7: after two recorded calls, export returns both
records sorted by start time, a restart over the same store agrees, and a
status filter reads a sublist of the store. -/
theorem c7_export_all_sorted_restartable_witness :
    exportRecords String demoS2 (fun _ => true) = demoS2.store ∧
    List.Pairwise (fun a b => a.timestamp_start ≤ b.timestamp_start)
      (exportRecords String demoS2 (fun _ => true)) ∧
    exportRecords String ⟨99, demoS2.clock, demoS2.store, false⟩
        (fun _ => true)
      = exportRecords String demoS2 (fun _ => true) ∧
    (exportRecords String demoS2
        (fun r => r.status == Status.failed)).Sublist demoS2.store :=
  c7_export_all_sorted_restartable demoS2 demoS2_reachable
    ⟨99, demoS2.clock, demoS2.store, false⟩ rfl
    (fun r => r.status == Status.failed)
